import Mathlib

/-!
Verification of the scam-audio-detector pipeline (src/main.py).

The program is a straight-line pipeline: persist input bytes to a temporary
file, shell out to ffmpeg to normalize the audio, transcribe with a speech
model, gate on transcript length, classify the transcript with a remote
model, and clean up the temporary files. The external services (ffmpeg
process, speech model, remote classifier) are modelled as oracle outcomes
supplied to the embedded functions; everything the Python code itself does
(argument construction, size and emptiness gates, substring-based verdict
parsing, file lifecycle on each exit path) is embedded directly below.
-/

/-- The argument vector convert_to_wav passes to subprocess.run
(src/main.py line 30). -/
def ffmpegArgs (audio_path output_path : String) : List String :=
  ["ffmpeg", "-i", audio_path, "-acodec", "pcm_s16le", "-ar", "16000", output_path]

/-- Outcome of the single subprocess.run call inside convert_to_wav:
normal zero-exit termination, subprocess.CalledProcessError carrying the
captured stderr (raised by check=True on non-zero exit), or
FileNotFoundError (ffmpeg executable absent). -/
inductive ProcOutcome where
  | success
  | calledProcessError (stderr : String)
  | fileNotFound
deriving DecidableEq

/-- Observable behaviour of one convert_to_wav call: the returned value
(output path on success, None on failure), the error text displayed via
st.error (if any), the number of subprocess invocations attempted, and the
argument vector of the invocation. -/
structure ConvertResult where
  ret : Option String
  errorShown : Option String
  invocations : Nat
  args : List String
deriving DecidableEq

/-- convert_to_wav (src/main.py lines 27-41): runs ffmpeg once with the
fixed argument vector; returns output_path on success, and on
CalledProcessError or FileNotFoundError shows an error and returns None. -/
def convert_to_wav (proc : ProcOutcome) (audio_path output_path : String) :
    ConvertResult :=
  match proc with
  | ProcOutcome.success =>
      { ret := some output_path, errorShown := none, invocations := 1,
        args := ffmpegArgs audio_path output_path }
  | ProcOutcome.calledProcessError stderr =>
      { ret := none,
        errorShown := some ("Error converting audio to WAV: " ++ stderr),
        invocations := 1, args := ffmpegArgs audio_path output_path }
  | ProcOutcome.fileNotFound =>
      { ret := none,
        errorShown :=
          some "FFmpeg is not installed or not found in PATH. Please install FFmpeg.",
        invocations := 1, args := ffmpegArgs audio_path output_path }

/-- Python str.lower on the character sequence of a string (the source
lowercases the classifier response before keyword matching). -/
def pyLower (s : String) : String := ⟨s.data.map Char.toLower⟩

/-- Python `not text.strip()`: true exactly when the string is empty or
consists only of whitespace characters. -/
def pyBlank (s : String) : Bool := s.data.all Char.isWhitespace

/-- Outcome of the whisper model call inside transcribe_audio: either the
transcription result text, or an exception message (model load or
inference failure). -/
inductive WhisperOutcome where
  | ok (text : String)
  | exn (msg : String)
deriving DecidableEq

/-- Observable behaviour of one transcribe_audio call: the (text, error)
pair it returns and whether the whisper model was loaded/invoked. -/
structure TranscribeResult where
  text : Option String
  error : Option String
  modelInvoked : Bool
deriving DecidableEq

/-- transcribe_audio (src/main.py lines 44-58): if the file size is below
100 bytes it returns the empty-audio error without touching the model;
otherwise it runs the model, rejects empty/whitespace-only text, and wraps
any exception into an error message. -/
def transcribe_audio (file_size : Nat) (whisper : WhisperOutcome) :
    TranscribeResult :=
  if file_size < 100 then
    { text := none, error := some "Audio file is empty or too small.",
      modelInvoked := false }
  else
    match whisper with
    | WhisperOutcome.ok text =>
        if pyBlank text then
          { text := none, error := some "Transcription is empty.",
            modelInvoked := true }
        else
          { text := some text, error := none, modelInvoked := true }
    | WhisperOutcome.exn msg =>
        { text := none, error := some ("Error transcribing audio: " ++ msg),
          modelInvoked := true }

/-- Helper for Python substring containment: does pat occur as a
contiguous run inside the character list? -/
def strContainsAux (pat : List Char) : List Char → Bool
  | [] => pat.isEmpty
  | c :: rest => pat.isPrefixOf (c :: rest) || strContainsAux pat rest

/-- Python `pat in s` substring containment on strings. -/
def strContains (s pat : String) : Bool :=
  strContainsAux pat.toList s.toList

/-- Outcome of the remote classifier call inside analyze_text: either the
response text, or an exception message (transport/quota/malformed
response). -/
inductive GeminiOutcome where
  | ok (response_text : String)
  | exn (msg : String)
deriving DecidableEq

/-- analyze_text (src/main.py lines 61-85): lower-cases the response and
checks substring containment of "yes" then "no"; the explanation returned
is the original (non-lowered) response text. On any exception it returns
(None, None, None). -/
def analyze_text (g : GeminiOutcome) :
    Option String × Option String × Option String :=
  match g with
  | GeminiOutcome.ok t =>
      let response_text := pyLower t
      if strContains response_text "yes" then
        (some "Scam detected!", some t, some "red")
      else if strContains response_text "no" then
        (some "Not a scam.", some t, some "green")
      else
        (some "Unable to determine.", some t, some "orange")
  | GeminiOutcome.exn _ => (none, none, none)

/-- Accumulator recursion collecting the maximal non-whitespace runs of a
character list (the words Python str.split with no arguments produces). -/
def wordsAux : List Char → List Char → List (List Char)
  | [], acc => if acc.isEmpty then [] else [acc.reverse]
  | c :: cs, acc =>
      if c.isWhitespace then
        (if acc.isEmpty then wordsAux cs [] else acc.reverse :: wordsAux cs [])
      else wordsAux cs (c :: acc)

/-- Python `len(text.split())`: number of maximal whitespace-delimited
words (split on whitespace, empties discarded). -/
def wordCount (text : String) : Nat :=
  (wordsAux text.data []).length

/-- The external-world outcomes one request can encounter: the ffmpeg
process result, the byte size the upload/record branch and
transcribe_audio observe, the whisper result, whether the Analyze button
was pressed, and the remote classifier result. recordedSize is the size
of the raw recorded blob checked by the Record Audio branch before
conversion; wavSize is the size of the converted file checked inside
transcribe_audio. -/
structure Env where
  proc : ProcOutcome
  wavSize : Nat
  whisper : WhisperOutcome
  analyzePressed : Bool
  gemini : GeminiOutcome
  recordedSize : Nat
deriving DecidableEq

/-- The program point at which a branch stopped via st.stop: the
pre-conversion size gate of the Record Audio branch, or one of the
pipeline stages. -/
inductive Stage where
  | recordSizeGate
  | converting
  | transcribing
  | lengthCheck
deriving DecidableEq

/-- How a branch run ended: stopped early via st.stop at some stage with
an error message, finished with the classifier result displayed (or
nothing displayed when the classifier failed), or finished without the
Analyze button having been pressed. -/
inductive Outcome where
  | stopped (stage : Stage) (msg : String)
  | done (res : Option String × Option String × Option String)
  | notAnalyzed
deriving DecidableEq

/-- Observable trace of one branch run: which temporary files were
created and which were removed (in order), which external calls were
made, and how the run ended. -/
structure RunResult where
  created : List String
  deleted : List String
  convertCalled : Bool
  modelCalled : Bool
  classifierCalled : Bool
  outcome : Outcome
deriving DecidableEq

/-- The Upload Audio branch (src/main.py lines 88-131), from the point the
uploaded bytes have been persisted to the temporary file tmp. It converts
to tmp + ".wav"; on conversion failure removes tmp and stops; then, if
Analyze is pressed, transcribes (on error removes both files and stops),
applies the 5-word length gate (same cleanup on failure), runs the
classifier, and finally removes both files. -/
def uploadBranch (tmp : String) (env : Env) : RunResult :=
  let wav := tmp ++ ".wav"
  let conv := convert_to_wav env.proc tmp wav
  match conv.ret with
  | none =>
      { created := [tmp], deleted := [tmp],
        convertCalled := true, modelCalled := false, classifierCalled := false,
        outcome := Outcome.stopped Stage.converting (conv.errorShown.getD "") }
  | some _ =>
      if env.analyzePressed then
        let tr := transcribe_audio env.wavSize env.whisper
        match tr.error with
        | some err =>
            { created := [tmp, wav], deleted := [tmp, wav],
              convertCalled := true, modelCalled := tr.modelInvoked,
              classifierCalled := false,
              outcome := Outcome.stopped Stage.transcribing err }
        | none =>
            let text := tr.text.getD ""
            if wordCount text < 5 then
              { created := [tmp, wav], deleted := [tmp, wav],
                convertCalled := true, modelCalled := tr.modelInvoked,
                classifierCalled := false,
                outcome := Outcome.stopped Stage.lengthCheck
                  "Transcription is too short for analysis. Please upload a longer audio clip." }
            else
              { created := [tmp, wav], deleted := [tmp, wav],
                convertCalled := true, modelCalled := tr.modelInvoked,
                classifierCalled := true,
                outcome := Outcome.done (analyze_text env.gemini) }
      else
        { created := [tmp, wav], deleted := [tmp, wav],
          convertCalled := true, modelCalled := false, classifierCalled := false,
          outcome := Outcome.notAnalyzed }

/-- The Record Audio branch (src/main.py lines 133-186), from the point
the recorded bytes have been persisted to the temporary file tmp. It
first checks the raw recorded size: below 100 bytes it removes tmp and
stops without converting. Otherwise it converts to
tmp + "_converted.wav" and proceeds exactly like the upload branch (with
its own too-short message). -/
def recordBranch (tmp : String) (env : Env) : RunResult :=
  if env.recordedSize < 100 then
    { created := [tmp], deleted := [tmp],
      convertCalled := false, modelCalled := false, classifierCalled := false,
      outcome := Outcome.stopped Stage.recordSizeGate
        "Recorded audio file is empty. Please ensure your microphone is working and browser permissions are granted." }
  else
    let wav := tmp ++ "_converted.wav"
    let conv := convert_to_wav env.proc tmp wav
    match conv.ret with
    | none =>
        { created := [tmp], deleted := [tmp],
          convertCalled := true, modelCalled := false, classifierCalled := false,
          outcome := Outcome.stopped Stage.converting (conv.errorShown.getD "") }
    | some _ =>
        if env.analyzePressed then
          let tr := transcribe_audio env.wavSize env.whisper
          match tr.error with
          | some err =>
              { created := [tmp, wav], deleted := [tmp, wav],
                convertCalled := true, modelCalled := tr.modelInvoked,
                classifierCalled := false,
                outcome := Outcome.stopped Stage.transcribing err }
          | none =>
              let text := tr.text.getD ""
              if wordCount text < 5 then
                { created := [tmp, wav], deleted := [tmp, wav],
                  convertCalled := true, modelCalled := tr.modelInvoked,
                  classifierCalled := false,
                  outcome := Outcome.stopped Stage.lengthCheck
                    "Transcription is too short for analysis. Please record a longer audio clip." }
              else
                { created := [tmp, wav], deleted := [tmp, wav],
                  convertCalled := true, modelCalled := tr.modelInvoked,
                  classifierCalled := true,
                  outcome := Outcome.done (analyze_text env.gemini) }
        else
          { created := [tmp, wav], deleted := [tmp, wav],
            convertCalled := true, modelCalled := false, classifierCalled := false,
            outcome := Outcome.notAnalyzed }

/-- A string is never equal to itself extended by a nonempty suffix. -/
theorem self_ne_append (s t : String) (h : 0 < t.length) : s ≠ s ++ t := by
  intro he
  have hl := congrArg String.length he
  rw [String.length_append] at hl
  omega

/-- The two temporary-file names of one request are distinct. -/
theorem nodup_tmp_pair (tmp s : String) (h : 0 < s.length) :
    ([tmp, tmp ++ s] : List String).Nodup := by
  simp [List.nodup_cons]
  exact self_ne_append tmp s h

/-- In every exit path of the upload branch, the files removed are exactly
the files created, in the same order, and the created names are distinct. -/
theorem cleanup_upload (tmp : String) (env : Env) :
    (uploadBranch tmp env).deleted = (uploadBranch tmp env).created ∧
    (uploadBranch tmp env).created.Nodup := by
  have hw : ([tmp, tmp ++ ".wav"] : List String).Nodup :=
    nodup_tmp_pair tmp ".wav" (by decide)
  have h1 : ([tmp] : List String).Nodup := by simp
  obtain ⟨proc, wavSize, whisper, pressed, gemini, recSize⟩ := env
  cases proc <;> cases pressed <;>
    rcases he : (transcribe_audio wavSize whisper).error with _ | err <;>
    by_cases hl :
      wordCount ((transcribe_audio wavSize whisper).text.getD "") < 5 <;>
    simp [uploadBranch, convert_to_wav, he, hl, hw, h1]

/-- In every exit path of the record branch, the files removed are exactly
the files created, in the same order, and the created names are distinct. -/
theorem cleanup_record (tmp : String) (env : Env) :
    (recordBranch tmp env).deleted = (recordBranch tmp env).created ∧
    (recordBranch tmp env).created.Nodup := by
  have hw : ([tmp, tmp ++ "_converted.wav"] : List String).Nodup :=
    nodup_tmp_pair tmp "_converted.wav" (by decide)
  have h1 : ([tmp] : List String).Nodup := by simp
  obtain ⟨proc, wavSize, whisper, pressed, gemini, recSize⟩ := env
  by_cases hr : recSize < 100 <;> cases proc <;> cases pressed <;>
    rcases he : (transcribe_audio wavSize whisper).error with _ | err <;>
    by_cases hl :
      wordCount ((transcribe_audio wavSize whisper).text.getD "") < 5 <;>
    simp [recordBranch, convert_to_wav, hr, he, hl, hw, h1]

/-- C2: on every exit path of both entry branches, the temporary files
removed are exactly the temporary files created during the request — each
created file is deleted exactly once by the time the run ends, and
nothing else is deleted. -/
theorem cleanup_exactly_once (tmp : String) (env : Env) :
    ((uploadBranch tmp env).deleted = (uploadBranch tmp env).created ∧
      (uploadBranch tmp env).created.Nodup) ∧
    ((recordBranch tmp env).deleted = (recordBranch tmp env).created ∧
      (recordBranch tmp env).created.Nodup) :=
  ⟨cleanup_upload tmp env, cleanup_record tmp env⟩

/-- C1 (counterexample): the argument vector convert_to_wav passes to the
decoder contains no "-ac" channel-count flag, so the arguments do not
select a mono channel layout; the claimed mono selection is absent even
on a successful concrete invocation. -/
theorem convert_args_no_mono_flag :
    ¬ ("-ac" ∈ (convert_to_wav ProcOutcome.success "input.mp3" "output.wav").args) := by
  decide

/-- C1 (amended): convert_to_wav always invokes the decoder with exactly
the fixed arguments -i input -acodec pcm_s16le -ar 16000 output, which
select 16-bit signed little-endian PCM at a 16 kHz sample rate but pass
no channel-count option, so the channel layout follows the input rather
than being forced to mono. -/
theorem convert_args_fixed (proc : ProcOutcome) (audio_path output_path : String) :
    (convert_to_wav proc audio_path output_path).args =
      ["ffmpeg", "-i", audio_path, "-acodec", "pcm_s16le", "-ar", "16000",
        output_path] := by
  cases proc <;> rfl

/-- C3: analyze_text lower-cases the response and checks substring
containment in fixed priority order: "yes" anywhere gives the
scam-detected verdict with color red (even if "no" also occurs);
otherwise "no" gives the not-a-scam verdict with color green; otherwise
the indeterminate verdict with color orange. -/
theorem analyze_text_priority (t : String) :
    (strContains (pyLower t) "yes" = true →
      analyze_text (GeminiOutcome.ok t) =
        (some "Scam detected!", some t, some "red")) ∧
    (strContains (pyLower t) "yes" = false →
      strContains (pyLower t) "no" = true →
      analyze_text (GeminiOutcome.ok t) =
        (some "Not a scam.", some t, some "green")) ∧
    (strContains (pyLower t) "yes" = false →
      strContains (pyLower t) "no" = false →
      analyze_text (GeminiOutcome.ok t) =
        (some "Unable to determine.", some t, some "orange")) := by
  refine ⟨fun h1 => ?_, fun h1 h2 => ?_, fun h1 h2 => ?_⟩
  · simp [analyze_text, h1]
  · simp [analyze_text, h1, h2]
  · simp [analyze_text, h1, h2]

/-- C3 witness: a response containing both "no" and "yes" is classified
scam-detected/red because the "yes" check comes first. -/
theorem analyze_text_priority_witness :
    analyze_text (GeminiOutcome.ok "No, but Yes it seems suspicious") =
      (some "Scam detected!", some "No, but Yes it seems suspicious", some "red") :=
  (analyze_text_priority "No, but Yes it seems suspicious").1 (by decide)

/-- C8: the explanation component analyze_text returns is always the full
original response text, in its original casing, not the lowercased copy
used for matching. -/
theorem analyze_text_explanation_untouched (t : String) :
    (analyze_text (GeminiOutcome.ok t)).2.1 = some t := by
  by_cases h1 : strContains (pyLower t) "yes" = true <;>
    by_cases h2 : strContains (pyLower t) "no" = true <;>
      simp [analyze_text, h1, h2]

/-- C5: any file below 100 bytes makes transcribe_audio return the
empty-audio error immediately, without loading the model or attempting
inference. -/
theorem transcribe_small_short_circuits (file_size : Nat)
    (whisper : WhisperOutcome) (h : file_size < 100) :
    transcribe_audio file_size whisper =
      { text := none, error := some "Audio file is empty or too small.",
        modelInvoked := false } := by
  simp [transcribe_audio, h]

/-- C5 witness: a 0-byte file is rejected with the empty-audio error and
no model invocation. -/
theorem transcribe_small_short_circuits_witness :
    transcribe_audio 0 (WhisperOutcome.ok "hello") =
      { text := none, error := some "Audio file is empty or too small.",
        modelInvoked := false } :=
  transcribe_small_short_circuits 0 (WhisperOutcome.ok "hello") (by decide)

/-- C6: a whitespace-only model result is turned into the
empty-transcription error, and a successful transcript returned by
transcribe_audio is never empty or whitespace-only. -/
theorem transcript_never_blank (file_size : Nat) (whisper : WhisperOutcome) :
    (∀ text, whisper = WhisperOutcome.ok text → pyBlank text = true →
      100 ≤ file_size →
      transcribe_audio file_size whisper =
        { text := none, error := some "Transcription is empty.",
          modelInvoked := true }) ∧
    (∀ t, (transcribe_audio file_size whisper).text = some t →
      pyBlank t = false) := by
  constructor
  · intro text hw ht hs
    subst hw
    simp [transcribe_audio, Nat.not_lt.mpr hs, ht]
  · intro t h
    unfold transcribe_audio at h
    split at h
    · simp at h
    · cases whisper with
      | ok text =>
          by_cases ht : pyBlank text = true
          · simp [ht] at h
          · simp [ht] at h
            subst h
            simpa using ht
      | exn msg => simp at h

/-- C6 witness: at 150 bytes a whitespace-only model result yields the
empty-transcription error. -/
theorem transcript_never_blank_witness :
    transcribe_audio 150 (WhisperOutcome.ok "   ") =
      { text := none, error := some "Transcription is empty.",
        modelInvoked := true } :=
  (transcript_never_blank 150 (WhisperOutcome.ok "   ")).1 "   " rfl
    (by decide) (by decide)

/-- C9: the byte-size gate threshold is exactly 100: every size strictly
below 100 is rejected with the empty-audio error without model
invocation, and every size of at least 100 reaches model inference. -/
theorem transcribe_threshold_100 (file_size : Nat) (whisper : WhisperOutcome) :
    (file_size < 100 →
      transcribe_audio file_size whisper =
        { text := none, error := some "Audio file is empty or too small.",
          modelInvoked := false }) ∧
    (100 ≤ file_size →
      (transcribe_audio file_size whisper).modelInvoked = true) := by
  constructor
  · intro h
    simp [transcribe_audio, h]
  · intro h
    unfold transcribe_audio
    rw [if_neg (Nat.not_lt.mpr h)]
    cases whisper with
    | ok text => by_cases ht : pyBlank text = true <;> simp [ht]
    | exn msg => rfl

/-- C9 witness: 99 bytes is rejected, 100 bytes reaches inference. -/
theorem transcribe_threshold_100_witness :
    transcribe_audio 99 (WhisperOutcome.ok "hello") =
      { text := none, error := some "Audio file is empty or too small.",
        modelInvoked := false } ∧
    (transcribe_audio 100 (WhisperOutcome.ok "hello")).modelInvoked = true :=
  ⟨(transcribe_threshold_100 99 (WhisperOutcome.ok "hello")).1 (by decide),
   (transcribe_threshold_100 100 (WhisperOutcome.ok "hello")).2 (by decide)⟩

/-- C7: convert_to_wav returns a failure value (None) exactly when the
process exits non-zero or the executable is missing; on non-zero exit the
captured stderr is propagated in the displayed error; and it makes
exactly one invocation attempt per call. -/
theorem convert_failure_iff (proc : ProcOutcome) (audio_path output_path : String) :
    ((convert_to_wav proc audio_path output_path).ret = none ↔
      proc ≠ ProcOutcome.success) ∧
    (∀ stderr, proc = ProcOutcome.calledProcessError stderr →
      (convert_to_wav proc audio_path output_path).errorShown =
        some ("Error converting audio to WAV: " ++ stderr)) ∧
    (proc = ProcOutcome.fileNotFound →
      (convert_to_wav proc audio_path output_path).errorShown =
        some "FFmpeg is not installed or not found in PATH. Please install FFmpeg.") ∧
    (convert_to_wav proc audio_path output_path).invocations = 1 := by
  refine ⟨?_, ?_, ?_, ?_⟩ <;> cases proc <;> simp [convert_to_wav]

/-- C7 witness: a non-zero exit with stderr "decode failed" yields a None
return and the stderr propagated in the error text. -/
theorem convert_failure_iff_witness :
    (convert_to_wav (ProcOutcome.calledProcessError "decode failed") "a.mp3"
        "b.wav").errorShown =
      some "Error converting audio to WAV: decode failed" :=
  (convert_failure_iff (ProcOutcome.calledProcessError "decode failed") "a.mp3"
    "b.wav").2.1 "decode failed" rfl

/-- C4: when conversion succeeds, Analyze is pressed and transcription
succeeds with a transcript of fewer than 5 whitespace-delimited words,
both branches stop at the length gate with their too-short message, the
classifier is never invoked, and both temporary files are removed. -/
theorem length_gate_blocks_classifier (tmp : String) (env : Env) (text : String)
    (hp : env.proc = ProcOutcome.success)
    (hb : env.analyzePressed = true)
    (hw : env.whisper = WhisperOutcome.ok text)
    (hs : 100 ≤ env.wavSize)
    (ht : pyBlank text = false)
    (hlen : wordCount text < 5) :
    ((uploadBranch tmp env).outcome = Outcome.stopped Stage.lengthCheck
        "Transcription is too short for analysis. Please upload a longer audio clip." ∧
      (uploadBranch tmp env).classifierCalled = false ∧
      (uploadBranch tmp env).deleted = [tmp, tmp ++ ".wav"]) ∧
    (100 ≤ env.recordedSize →
      (recordBranch tmp env).outcome = Outcome.stopped Stage.lengthCheck
        "Transcription is too short for analysis. Please record a longer audio clip." ∧
      (recordBranch tmp env).classifierCalled = false ∧
      (recordBranch tmp env).deleted = [tmp, tmp ++ "_converted.wav"]) := by
  obtain ⟨proc, wavSize, whisper, pressed, gemini, recSize⟩ := env
  simp only at hp hb hw hs
  subst hp hb hw
  have htr : transcribe_audio wavSize (WhisperOutcome.ok text) =
      { text := some text, error := none, modelInvoked := true } := by
    simp [transcribe_audio, Nat.not_lt.mpr hs, ht]
  constructor
  · simp [uploadBranch, convert_to_wav, htr, hlen]
  · intro hr
    simp only at hr
    simp [recordBranch, Nat.not_lt.mpr hr, convert_to_wav, htr, hlen]

/-- C4 witness: a successful 2-word transcript stops both branches at the
length gate with the classifier untouched and both files removed. -/
theorem length_gate_blocks_classifier_witness :
    ((uploadBranch "t" ⟨ProcOutcome.success, 200, WhisperOutcome.ok "hello there",
        true, GeminiOutcome.ok "ok", 200⟩).outcome =
      Outcome.stopped Stage.lengthCheck
        "Transcription is too short for analysis. Please upload a longer audio clip." ∧
      (uploadBranch "t" ⟨ProcOutcome.success, 200, WhisperOutcome.ok "hello there",
        true, GeminiOutcome.ok "ok", 200⟩).classifierCalled = false ∧
      (uploadBranch "t" ⟨ProcOutcome.success, 200, WhisperOutcome.ok "hello there",
        true, GeminiOutcome.ok "ok", 200⟩).deleted = ["t", "t" ++ ".wav"]) ∧
    ((recordBranch "t" ⟨ProcOutcome.success, 200, WhisperOutcome.ok "hello there",
        true, GeminiOutcome.ok "ok", 200⟩).outcome =
      Outcome.stopped Stage.lengthCheck
        "Transcription is too short for analysis. Please record a longer audio clip." ∧
      (recordBranch "t" ⟨ProcOutcome.success, 200, WhisperOutcome.ok "hello there",
        true, GeminiOutcome.ok "ok", 200⟩).classifierCalled = false ∧
      (recordBranch "t" ⟨ProcOutcome.success, 200, WhisperOutcome.ok "hello there",
        true, GeminiOutcome.ok "ok", 200⟩).deleted = ["t", "t" ++ "_converted.wav"]) :=
  ⟨(length_gate_blocks_classifier "t"
      ⟨ProcOutcome.success, 200, WhisperOutcome.ok "hello there", true,
        GeminiOutcome.ok "ok", 200⟩ "hello there" rfl rfl rfl (by decide)
      (by decide) (by decide)).1,
   (length_gate_blocks_classifier "t"
      ⟨ProcOutcome.success, 200, WhisperOutcome.ok "hello there", true,
        GeminiOutcome.ok "ok", 200⟩ "hello there" rfl rfl rfl (by decide)
      (by decide) (by decide)).2 (by decide)⟩

/-- C10: in the record branch a recording below 100 bytes fails the
pre-conversion size gate — the temporary file is removed, the run stops,
and convert_to_wav is never invoked; consequently the converter is only
ever invoked when the recording is at least 100 bytes. -/
theorem record_size_gate (tmp : String) (env : Env) :
    (env.recordedSize < 100 →
      (recordBranch tmp env).convertCalled = false ∧
      (recordBranch tmp env).deleted = [tmp] ∧
      (recordBranch tmp env).outcome = Outcome.stopped Stage.recordSizeGate
        "Recorded audio file is empty. Please ensure your microphone is working and browser permissions are granted.") ∧
    ((recordBranch tmp env).convertCalled = true → 100 ≤ env.recordedSize) := by
  constructor
  · intro h
    simp [recordBranch, h]
  · intro h
    rcases Nat.lt_or_ge env.recordedSize 100 with hlt | hge
    · rw [recordBranch] at h
      simp [hlt] at h
    · exact hge

/-- C10 witness: a 10-byte recording stops at the size gate with the file
removed and the converter never invoked. -/
theorem record_size_gate_witness :
    (recordBranch "t" ⟨ProcOutcome.success, 200, WhisperOutcome.ok "x", false,
        GeminiOutcome.ok "y", 10⟩).convertCalled = false ∧
    (recordBranch "t" ⟨ProcOutcome.success, 200, WhisperOutcome.ok "x", false,
        GeminiOutcome.ok "y", 10⟩).deleted = ["t"] ∧
    (recordBranch "t" ⟨ProcOutcome.success, 200, WhisperOutcome.ok "x", false,
        GeminiOutcome.ok "y", 10⟩).outcome =
      Outcome.stopped Stage.recordSizeGate
        "Recorded audio file is empty. Please ensure your microphone is working and browser permissions are granted." :=
  (record_size_gate "t" ⟨ProcOutcome.success, 200, WhisperOutcome.ok "x", false,
    GeminiOutcome.ok "y", 10⟩).1 (by decide)
